import Mathlib

/-!
# Verification of the recmeet capture-and-validate pipeline

Shallow embedding of the core functions of `recmeet.py` (audio source
detection, dual-capture spawn and stop, the three-stage audio validation
cascade, mixing fallback, and session-directory allocation) and of the
tray pipeline's cancellation behaviour, together with proofs of the
specified properties.

Conventions: durations are rationals (`ℚ`), file sizes are naturals,
the filesystem and the outcomes of external tools (wave header parse,
ffprobe, ffmpeg, subprocess spawn) are passed in explicitly as data.
-/

namespace Recmeet

/-! ## Audio validation (`validate_audio`, recmeet.py lines 278-329)

The Python function receives a path and consults the filesystem and two
external tools.  The embedding packages those observations into an
`AudioFile` record:

* `fsExists`/`size` — `path.exists()` and `path.stat().st_size`;
* `header` — the result of `wave.open`: `some (frames, rate)` when the
  header parses (`getnframes`/`getframerate`), `none` when `wave.open`
  raises the `wave.Error` that the `except wave.Error` clause (line
  301) catches, falling through to the probe.  `wave.open` can also
  raise `EOFError` — on a file shorter than 8 bytes, or on a truncated
  chunk body such as a 22-byte RIFF/WAVE file whose fmt chunk declares
  a size beyond the file's end — which `except wave.Error` does *not*
  catch, so it escapes `validate_audio` entirely; that uncaught path is
  outside this record and is modelled separately by `AudioFileFull`
  below;
* `probe` — the ffprobe fallback: `some d` when ffprobe exits 0 with a
  parseable numeric duration on stdout, `none` when ffprobe is missing,
  times out, exits non-zero, prints nothing, or prints a non-number
  (`FileNotFoundError`/`TimeoutExpired`/`ValueError` are all caught).
-/

structure AudioFile where
  fsExists : Bool
  size : Nat
  header : Option (Nat × Nat)
  probe : Option ℚ
deriving Repr, DecidableEq

/-- Which cascade stage produced the duration. -/
inductive Stage where
  | headerParse
  | externalProbe
  | sizeEstimate
deriving Repr, DecidableEq

/-- The `AudioValidationError` cases raised by `validate_audio`:
missing/empty file, too-short duration (tagged with the stage that
computed it), or a size estimate with no data past the 44-byte header. -/
inductive VError where
  | emptyFile
  | tooShort (stage : Stage) (d : ℚ)
  | noData
deriving Repr, DecidableEq

/-- The ffprobe fallback stage of `validate_audio` (lines 304-318),
followed by the size-estimate last resort (lines 320-329): the estimate
is `(size - 44) / 32000` and a file with nothing past the 44-byte
header raises `noData`. -/
def validateProbe (f : AudioFile) (min_duration : ℚ) : Except VError (Stage × ℚ) :=
  match f.probe with
  | some duration =>
    if duration < min_duration then .error (.tooShort .externalProbe duration)
    else .ok (.externalProbe, duration)
  | none =>
    let data_size : ℤ := (f.size : ℤ) - 44
    if data_size ≤ 0 then .error .noData
    else
      let duration : ℚ := (data_size : ℚ) / 32000
      if duration < min_duration then .error (.tooShort .sizeEstimate duration)
      else .ok (.sizeEstimate, duration)

/-- Embedding of `validate_audio` (recmeet.py lines 278-329).

Mirrors the control flow exactly: an absent or zero-length file raises
immediately; the wave-header stage only fires when the header parses
with `rate > 0 and frames > 0` (otherwise control falls through to the
ffprobe stage); the remaining stages are `validateProbe`.  Whichever
stage produced the duration, a value below `min_duration` raises
`tooShort`. -/
def validate_audio (f : AudioFile) (min_duration : ℚ) : Except VError (Stage × ℚ) :=
  if f.fsExists = false ∨ f.size = 0 then .error .emptyFile
  else
    match f.header with
    | some (frames, rate) =>
      if 0 < rate ∧ 0 < frames then
        let duration : ℚ := (frames : ℚ) / (rate : ℚ)
        if duration < min_duration then .error (.tooShort .headerParse duration)
        else .ok (.headerParse, duration)
      else validateProbe f min_duration
    | none => validateProbe f min_duration

/-- The duration the probe/estimate stages resolve, independent of the
`min_duration` threshold. -/
def resolvedProbe (f : AudioFile) : Option (Stage × ℚ) :=
  match f.probe with
  | some duration => some (.externalProbe, duration)
  | none =>
    let data_size : ℤ := (f.size : ℤ) - 44
    if data_size ≤ 0 then none
    else some (.sizeEstimate, (data_size : ℚ) / 32000)

/-- The duration the cascade resolves for a file, independent of the
`min_duration` threshold: the stage that fires and the value it
computes.  `none` when no stage produces a duration (missing/empty file
or no data past the header). -/
def resolvedDuration (f : AudioFile) : Option (Stage × ℚ) :=
  if f.fsExists = false ∨ f.size = 0 then none
  else
    match f.header with
    | some (frames, rate) =>
      if 0 < rate ∧ 0 < frames then some (.headerParse, (frames : ℚ) / (rate : ℚ))
      else resolvedProbe f
    | none => resolvedProbe f

/-! ### The uncaught EOFError path

`validate_audio` catches only `wave.Error` (line 301).  Python's
`wave.open`, however, raises `EOFError` — not `wave.Error` — on a file
shorter than 8 bytes and on a truncated chunk body (e.g. a 22-byte
RIFF/WAVE file whose fmt chunk declares a size past the file's end);
such an exception propagates out of `validate_audio` uncaught, even
though the function's own docstring says "Raises AudioValidationError
on failure".  The definitions below extend the embedding with this
third header-parse outcome; `AudioFile.header = none` above covers only
the *caught* `wave.Error` fall-through, the regime of the cascade
properties. -/

/-- Outcome of `wave.open` on the capture file: a parsed header, a
`wave.Error` (caught at line 301 and falling through to the probe
stages), or an `EOFError` (raised on severely truncated files and not
caught by `except wave.Error`). -/
inductive HeaderOutcome where
  | parsed (frames rate : Nat)
  | waveError
  | eofError
deriving Repr, DecidableEq

/-- A capture file together with the full three-way header-parse
outcome. -/
structure AudioFileFull where
  fsExists : Bool
  size : Nat
  header : HeaderOutcome
  probe : Option ℚ
deriving Repr, DecidableEq

/-- The view of an `AudioFileFull` inside the caught regime: the header
either parsed or fell through with the caught `wave.Error` — exactly
what `AudioFile.header` can express. -/
def AudioFileFull.project (f : AudioFileFull) : AudioFile :=
  ⟨f.fsExists, f.size,
    match f.header with
    | .parsed frames rate => some (frames, rate)
    | .waveError => none
    | .eofError => none,
    f.probe⟩

/-- Full outcome of a `validate_audio` call: a normal return, a raised
`AudioValidationError`, or the `EOFError` that escapes the function
uncaught. -/
inductive ValidateOutcome where
  | ok (s : Stage) (d : ℚ)
  | err (e : VError)
  | uncaughtEOF
deriving Repr, DecidableEq

/-- Injection of `validate_audio`'s `Except` result into the full
outcome type. -/
def liftResult : Except VError (Stage × ℚ) → ValidateOutcome
  | .ok (s, d) => .ok s d
  | .error e => .err e

/-- Embedding of `validate_audio` including the uncaught-exception
path: the missing/empty check (line 287) fires first and raises
`emptyFile`; then a `wave.open` that raises `EOFError` propagates out
of the function; in every other case (header parsed, or the caught
`wave.Error` fall-through) the behaviour is that of `validate_audio`
on the projected file. -/
def validate_audio_full (f : AudioFileFull) (min_duration : ℚ) : ValidateOutcome :=
  if f.fsExists = false ∨ f.size = 0 then .err .emptyFile
  else
    match f.header with
    | .eofError => .uncaughtEOF
    | _ => liftResult (validate_audio f.project min_duration)

/-! ## Source detection (`detect_sources`, recmeet.py lines 99-117)

The regex `re.compile(pattern, re.IGNORECASE)` with `regex.search(name)`
is abstracted as a predicate `p : String → Bool` on endpoint names
(case-insensitivity is folded into `p`).  The Python loop keeps the
*first* match per kind because `monitor = monitor or name` (resp. `mic`)
retains an already-set value. -/

/-- Python's `name.endswith(".monitor")`: the monitor-kind naming
convention, as a suffix test on the name's characters. -/
def isMonitor (name : String) : Bool := ".monitor".data.isSuffixOf name.data

/-- Python's `x or y` on optional endpoint names: keep `x` when it is
already set, otherwise take `y`. -/
def keepFirst (x y : Option String) : Option String :=
  match x with
  | some v => some v
  | none => y

/-- One iteration of the `for name in all_sources` loop: the accumulator
carries the `mic` and `monitor` variables, updated by
`monitor = monitor or name` (resp. `mic = mic or name`). -/
def detectStep (p : String → Bool) (acc : Option String × Option String)
    (name : String) : Option String × Option String :=
  if p name then
    if isMonitor name then (acc.1, keepFirst acc.2 (some name))
    else (keepFirst acc.1 (some name), acc.2)
  else acc

/-- Embedding of `detect_sources`: returns `(mic, monitor, all_sources)`. -/
def detect_sources (p : String → Bool) (all_sources : List String) :
    Option String × Option String × List String :=
  let r := all_sources.foldl (detectStep p) (none, none)
  (r.1, r.2, all_sources)

/-! ## Session directory allocation (`create_output_dir`, recmeet.py lines 392-409)

The filesystem under the base directory is abstracted as a predicate
`ex : String → Bool` telling which directory names already exist (the
`Path.exists()` calls).  `ts` is the minute-granularity timestamp
`datetime.now().strftime("%Y-%m-%d_%H-%M")`.  The final
`out_dir.mkdir(parents=True)` has `exist_ok=False`, so creation is
exclusive: it raises rather than reuse an existing directory, which is
why the function must return a name with `ex name = false`. -/

/-- The collision-suffixed candidate `f"{timestamp}_{i}"`. -/
def candidateName (ts : String) (i : Nat) : String := ts ++ "_" ++ toString i

/-- The `for i in range(2, 100)` collision loop: the first candidate that
does not exist, or `none` when the loop falls through to its `else`
branch (`sys.exit(1)`, "Too many sessions in the same minute"). -/
def findCandidate (ex : String → Bool) (ts : String) : Option String :=
  ((List.range 98).map (fun k => candidateName ts (k + 2))).find? (fun c => !ex c)

/-- Embedding of `create_output_dir`: `some dir` is the directory the
function creates and returns; `none` is the fatal too-many-sessions
exit. -/
def create_output_dir (ex : String → Bool) (ts : String) : Option String :=
  if ex ts then findCandidate ex ts else some ts

/-! ## Dual-capture spawn phase (`record_dual_audio`, recmeet.py lines 195-216)

The order of operations in the source: `find_recorder()` (exits the
program when neither `pw-record` nor `parecord` is installed), the
`which parecord` check (exits when `parecord` is missing — monitor
capture requires it), then `Popen(mic_cmd)`, then `Popen(monitor_cmd)`.
The two `Popen` calls sit *before* the `try/finally` block that stops
both processes, and no handler surrounds them, so an exception raised
by the second `Popen` propagates while the first process keeps
running. -/

structure SpawnEnv where
  /-- Whether `find_recorder()` finds `pw-record` or `parecord`. -/
  recorderAvailable : Bool
  /-- Whether `which parecord` succeeds (required for the monitor stream). -/
  parecordAvailable : Bool
  /-- Whether `Popen(mic_cmd)` succeeds rather than raising. -/
  micSpawnOk : Bool
  /-- Whether `Popen(monitor_cmd)` succeeds rather than raising. -/
  monitorSpawnOk : Bool
deriving Repr, DecidableEq

/-- How the spawn phase of `record_dual_audio` ends, and which capture
processes are left running when it ends abnormally. -/
inductive SpawnOutcome where
  /-- Both `Popen` calls succeeded; recording proceeds. -/
  | bothRunning
  /-- Exit via `sys.exit(1)` before any spawn (missing recorder or parecord). -/
  | exitNoSpawn
  /-- Case where `Popen(mic_cmd)` raised; no capture process is running. -/
  | raisedNoneRunning
  /-- Case where `Popen(monitor_cmd)` raised; the mic process is left running and
  nothing in the function stops it. -/
  | raisedMicRunning
deriving Repr, DecidableEq

/-- Embedding of the spawn phase of `record_dual_audio` (lines 203-216). -/
def dualSpawnPhase (env : SpawnEnv) : SpawnOutcome :=
  if env.recorderAvailable = false then .exitNoSpawn
  else if env.parecordAvailable = false then .exitNoSpawn
  else if env.micSpawnOk = false then .raisedNoneRunning
  else if env.monitorSpawnOk = false then .raisedMicRunning
  else .bothRunning

/-- Holds (as `true`) when the spawn phase ends with exactly one capture stream
still running (a partial dual capture left behind). -/
def loneStreamLeft : SpawnOutcome → Bool
  | .raisedMicRunning => true
  | _ => false

/-! ## Dual-capture stop (`_stop_proc` and the `finally` block,
recmeet.py lines 222-241)

`_stop_proc` sends SIGINT, waits up to 5 seconds, and on
`TimeoutExpired` kills the process and reaps it.  The behaviour of one
process is summed up by its exit delay after SIGINT: `some t` when it
exits `t` seconds after the interrupt, `none` when it ignores the
interrupt entirely.  The kill-and-reap of a just-killed process is
modelled as instantaneous.  The `finally` block runs
`_stop_proc(mic_proc)` and then `_stop_proc(monitor_proc)` one after
the other, so the elapsed times add. -/

/-- Wall-clock seconds spent inside one `_stop_proc` call, given the
process's exit delay after SIGINT. -/
def stop_proc_time (exitDelay : Option ℚ) : ℚ :=
  match exitDelay with
  | some t => min t 5
  | none => 5

/-- Wall-clock seconds the `finally` block spends stopping both
processes: the two `_stop_proc` calls run sequentially. -/
def dual_stop_time (micDelay monitorDelay : Option ℚ) : ℚ :=
  stop_proc_time micDelay + stop_proc_time monitorDelay

/-! ## Mixing and the mic-only fallback (`mix_audio`, recmeet.py lines
246-275, and the dual-mode branch of `main`, lines 510-527)

File contents are byte sequences.  `mix_audio` runs ffmpeg with a
120-second timeout; on exit 0 the output file holds the mixed track,
while on non-zero exit, `FileNotFoundError`, or `TimeoutExpired` it
logs a warning and `shutil.copy2`s the mic recording to the output
path — a byte-identical copy. -/

abbrev ByteSeq := List Nat

/-- How the ffmpeg mix invocation ends. -/
inductive FfmpegOutcome where
  | exit (code : Nat)
  | missing
  | timeout
deriving Repr, DecidableEq

/-- Embedding of `mix_audio`: given the bytes of the mic recording and
of the track ffmpeg would produce, returns the bytes landing at
`output_path` and whether a warning was logged. -/
def mix_audio (micBytes mixedBytes : ByteSeq) (o : FfmpegOutcome) : ByteSeq × Bool :=
  match o with
  | .exit 0 => (mixedBytes, false)
  | .exit _ => (micBytes, true)
  | .missing => (micBytes, true)
  | .timeout => (micBytes, true)

/-- How the dual-mode post-capture section of `main` ends. -/
inductive RunOutcome where
  /-- Exit via `sys.exit(1)`: the mic capture failed validation. -/
  | fatalError
  /-- The run continues into transcription with the given bytes at
  `audio.wav`; the flag records whether a warning was logged. -/
  | proceed (audioBytes : ByteSeq) (warned : Bool)
deriving Repr, DecidableEq

/-- Embedding of `main`'s dual-mode post-capture section (lines
510-527): validate mic (fatal), validate monitor (non-fatal: warn, copy
mic to `audio.wav`, drop to single mode), otherwise mix.  `micOk` and
`monOk` are the outcomes of the two `validate_audio` calls. -/
def dualPostCapture (micBytes mixedBytes : ByteSeq) (micOk monOk : Bool)
    (ff : FfmpegOutcome) : RunOutcome :=
  if micOk = false then .fatalError
  else if monOk = false then .proceed micBytes true
  else
    let r := mix_audio micBytes mixedBytes ff
    .proceed r.1 r.2

/-! ## Tray pipeline cancellation

`recmeet_tray._recording_pipeline` (recmeet_tray.py lines 219-273)
delegates the record→validate→transcribe sequence to
`recmeet.run_pipeline(..., stop_event=...)`, passing the cooperative
cancellation flag that `_on_stop` sets from the GTK thread.
`run_pipeline` itself is not among the sources; its recording loop is
modelled from the spec, mirroring the in-source 0.1-second poll loop of
`record_dual_audio` (lines 231-236).  Time is discretised into poll
ticks 0.1 s apart. -/

/-- State of one capture subprocess.  `exited` and `killed` are the
terminal states. -/
inductive ProcState where
  | running
  | exited
  | killed
deriving Repr, DecidableEq

/-- A process state is terminal when the process has been reaped. -/
def ProcState.terminal : ProcState → Bool
  | .running => false
  | .exited => true
  | .killed => true

/-- Effect of `_stop_proc` (recmeet.py lines 222-229) on one process:
SIGINT then wait up to the grace period, then SIGKILL and reap.  A
running process that honours the interrupt ends `exited`; one that
ignores it ends `killed`; a process already terminal stays terminal. -/
def stopProc (ignoresInterrupt : Bool) : ProcState → ProcState
  | .running => if ignoresInterrupt then .killed else .exited
  | .exited => .exited
  | .killed => .killed

/-- The pipeline phases of the state machine. -/
inductive Phase where
  | idle
  | recording
  | validating
  | mixing
  | transcribing
  | summarizing
  | error
deriving Repr, DecidableEq

/-- The interval between consecutive polls of the stop flag, in
seconds (`time.sleep(0.1)` in the recording wait loop). -/
def pollIntervalSeconds : ℚ := 1 / 10

/-- Modelled from the spec: the recording wait loop of `run_pipeline`
(absent from the sources; recmeet_tray.py calls it with the tray's
`stop_event`).  Starting at tick `k`, poll the stop flag once per tick
for at most `fuel` ticks and return the tick at which it is first
observed set. -/
def recordingPoll (isSet : Nat → Bool) (k fuel : Nat) : Option Nat :=
  match fuel with
  | 0 => none
  | fuel + 1 => if isSet k then some k else recordingPoll isSet (k + 1) fuel

/-- Modelled from the spec: the environment of one cancelled pipeline
run — the stop flag as observed at each poll tick, how each capture
process reacts to the interrupt, and the outcomes of the downstream
stages (`run_pipeline` is absent from the sources). -/
structure CancelEnv where
  stopFlag : Nat → Bool
  micIgnoresInterrupt : Bool
  monIgnoresInterrupt : Bool
  /-- Mic validation outcome — fatal on failure. -/
  micValid : Bool
  /-- Monitor validation outcome — non-fatal, degrades to mic-only and
  does not change the final phase. -/
  monValid : Bool
  transcribeOk : Bool

/-- Modelled from the spec: the shared stop-and-validate path of
`run_pipeline` (absent from the sources) that both a normal stop and a
cancellation go through — stop both capture processes
(interrupt-then-kill), then validate (mic fatal, monitor degrade), then
transcribe; the run ends `idle` on success and `error` on a fatal
failure.  Returns the final phase and the final state of each capture
process. -/
def stopAndValidatePath (e : CancelEnv) (micP monP : ProcState) :
    Phase × ProcState × ProcState :=
  let micP := stopProc e.micIgnoresInterrupt micP
  let monP := stopProc e.monIgnoresInterrupt monP
  let phase :=
    if e.micValid = false then Phase.error
    else if e.transcribeOk = false then Phase.error
    else Phase.idle
  (phase, micP, monP)

/-- Modelled from the spec: the result of a run whose stop was
requested by the operator — it takes `stopAndValidatePath` from the
`Recording` phase with both capture processes running. -/
def operatorStopResult (e : CancelEnv) : Phase × ProcState × ProcState :=
  stopAndValidatePath e .running .running

/-- Modelled from the spec: `run_pipeline` under a cancellation flag
(absent from the sources).  While `Recording`, poll the flag once per
tick; when it is observed, leave the loop and run the same
stop-and-validate path as a normal stop.  `none` means the flag was
never observed within `fuel` ticks and the run is still recording. -/
def run_pipeline (e : CancelEnv) (fuel : Nat) : Option (Phase × ProcState × ProcState) :=
  (recordingPoll e.stopFlag 0 fuel).map fun _ => stopAndValidatePath e .running .running

/-! ## Theorems -/

/-- C9: for every path whose file is missing or has zero length,
`validate_audio` fails immediately with the empty-file error; no
cascade stage (header parse, external probe, size estimate) is
attempted — the result is `emptyFile` whatever `header` and `probe`
hold. -/
theorem validate_audio_empty_file (f : AudioFile) (min_duration : ℚ)
    (h : f.fsExists = false ∨ f.size = 0) :
    validate_audio f min_duration = .error .emptyFile := by
  unfold validate_audio
  rw [if_pos h]

/-- Witness for C9 at a zero-length file. -/
theorem validate_audio_empty_file_witness :
    validate_audio ⟨true, 0, some (16000, 16000), some 3⟩ 1 = .error .emptyFile :=
  validate_audio_empty_file ⟨true, 0, some (16000, 16000), some 3⟩ 1 (Or.inr rfl)

/-- C8: for every file of byte size `44 + n` with `n ≥ 32000`
(i.e. `44 + 32000*t` with `t ≥ 1` second) whose header is unparseable
and for which the external probe produces no duration, the
size-estimate stage returns exactly `(fileSize - 44) / 32000 =
n / 32000 = t`. -/
theorem validate_audio_size_estimate (n : Nat) (h : 32000 ≤ n) :
    validate_audio ⟨true, 44 + n, none, none⟩ 1 =
      .ok (.sizeEstimate, (n : ℚ) / 32000) := by
  unfold validate_audio validateProbe
  have hsz : ¬((true : Bool) = false ∨ 44 + n = 0) := by simp
  rw [if_neg hsz]
  simp only
  have hdata : ((44 + n : Nat) : ℤ) - 44 = (n : ℤ) := by push_cast; ring
  rw [hdata]
  have hpos : ¬((n : ℤ) ≤ 0) := by omega
  rw [if_neg hpos]
  have hge : ¬(((n : ℤ) : ℚ) / 32000 < 1) := by
    rw [not_lt, le_div_iff₀ (by norm_num : (0 : ℚ) < 32000), one_mul]
    exact_mod_cast h
  rw [if_neg hge]
  norm_num

/-- Witness for C8 at a file of `44 + 48000` bytes (`t = 1.5` s). -/
theorem validate_audio_size_estimate_witness :
    32000 ≤ 48000 ∧
      validate_audio ⟨true, 44 + 48000, none, none⟩ 1 =
        .ok (.sizeEstimate, (48000 : ℚ) / 32000) :=
  ⟨by norm_num, validate_audio_size_estimate 48000 (by norm_num)⟩

/-- C1 fails on the code: with the recorder and `parecord` present, a
successful mic spawn, and a failing monitor spawn, `record_dual_audio`
ends its spawn phase with the mic process still running and nothing
stopping it — a partial dual capture (exactly one stream running) is
left behind, contrary to the claim that the other stream is stopped
immediately. -/
theorem dualSpawn_partial_capture_cex :
    dualSpawnPhase ⟨true, true, true, false⟩ = .raisedMicRunning ∧
      loneStreamLeft (dualSpawnPhase ⟨true, true, true, false⟩) = true := by
  constructor <;> rfl

/-- C1 (amended): the spawn phase of `record_dual_audio` leaves a
partial dual capture behind exactly when the failure is a monitor spawn
failure after a successful mic spawn; failures that precede the mic
spawn (missing recorder, missing `parecord`, mic spawn failure) leave
no stream running, but a monitor spawn failure does not stop the
already-running mic stream. -/
theorem dualSpawn_partial_capture_characterization (env : SpawnEnv) :
    loneStreamLeft (dualSpawnPhase env) =
      (env.recorderAvailable && env.parecordAvailable && env.micSpawnOk &&
        !env.monitorSpawnOk) := by
  obtain ⟨a, b, c, d⟩ := env
  cases a <;> cases b <;> cases c <;> cases d <;> rfl

/-- C2 fails on the code: the two `_stop_proc` calls in the `finally`
block run sequentially, so when both recorder processes ignore SIGINT
the stop phase takes two full grace periods (10 s), not ≈ one (5 s). -/
theorem dual_stop_time_cex :
    dual_stop_time none none = 10 ∧ ¬(dual_stop_time none none ≤ 5) := by
  constructor
  · norm_num [dual_stop_time, stop_proc_time]
  · norm_num [dual_stop_time, stop_proc_time]

/-- C2 (amended): the unified stop issues the interrupt-then-kill stop
(5-second grace per stream) to the two recorder sessions sequentially,
and it always returns with total stop time between 0 and two grace
periods (10 s). -/
theorem dual_stop_time_bounded (micDelay monitorDelay : Option ℚ)
    (hm : ∀ t ∈ micDelay, 0 ≤ t) (hn : ∀ t ∈ monitorDelay, 0 ≤ t) :
    0 ≤ dual_stop_time micDelay monitorDelay ∧
      dual_stop_time micDelay monitorDelay ≤ 10 := by
  have bound : ∀ (d : Option ℚ), (∀ t ∈ d, 0 ≤ t) →
      0 ≤ stop_proc_time d ∧ stop_proc_time d ≤ 5 := by
    intro d hd
    cases d with
    | none => simp [stop_proc_time]
    | some t =>
      have ht : 0 ≤ t := hd t rfl
      constructor
      · exact le_min ht (by norm_num)
      · exact min_le_right t 5
  obtain ⟨h1, h2⟩ := bound micDelay hm
  obtain ⟨h3, h4⟩ := bound monitorDelay hn
  constructor
  · exact add_nonneg h1 h3
  · calc dual_stop_time micDelay monitorDelay
        = stop_proc_time micDelay + stop_proc_time monitorDelay := rfl
      _ ≤ 5 + 5 := add_le_add h2 h4
      _ = 10 := by norm_num

/-- Witness for the amended C2 at a mic that exits 7 s after SIGINT
(killed at the 5 s grace) and a monitor that ignores SIGINT. -/
theorem dual_stop_time_bounded_witness :
    0 ≤ dual_stop_time (some 7) none ∧ dual_stop_time (some 7) none ≤ 10 :=
  dual_stop_time_bounded (some 7) none
    (by intro t ht; cases ht; norm_num)
    (by intro t ht; cases ht)

/-- C7: in dual mode with a valid mic capture, if monitor validation
fails, or if the mixer invocation fails (non-zero exit, missing binary,
or timeout), the bytes landing at the output audio path are exactly the
mic capture's bytes, a warning is logged, and the run proceeds into
transcription rather than failing. -/
theorem dualPostCapture_mic_fallback (micBytes mixedBytes : ByteSeq)
    (monOk : Bool) (ff : FfmpegOutcome)
    (h : monOk = false ∨ ff ≠ .exit 0) :
    dualPostCapture micBytes mixedBytes true monOk ff =
      .proceed micBytes true := by
  rcases h with h | h
  · subst h
    rfl
  · cases hmon : monOk with
    | false => rfl
    | true =>
      unfold dualPostCapture mix_audio
      simp only [Bool.true_eq_false, if_false, reduceIte]
      cases ff with
      | exit code =>
        cases code with
        | zero => exact absurd rfl h
        | succ k => rfl
      | missing => rfl
      | timeout => rfl

/-- Witness for C7 at a failed monitor validation and at a mixer
failing with exit code 1. -/
theorem dualPostCapture_mic_fallback_witness :
    dualPostCapture [1, 2, 3] [9] true false (.exit 0) = .proceed [1, 2, 3] true ∧
      dualPostCapture [1, 2, 3] [9] true true (.exit 1) = .proceed [1, 2, 3] true :=
  ⟨dualPostCapture_mic_fallback [1, 2, 3] [9] false (.exit 0) (Or.inl rfl),
   dualPostCapture_mic_fallback [1, 2, 3] [9] true (.exit 1) (Or.inr (by decide))⟩

/-- Helper: when the probe/estimate stages resolve a duration below the
threshold, `validateProbe` raises `tooShort` tagged with that stage. -/
theorem validateProbe_tooShort (f : AudioFile) (min_duration : ℚ) (s : Stage) (d : ℚ)
    (hres : resolvedProbe f = some (s, d)) (hd : d < min_duration) :
    validateProbe f min_duration = .error (.tooShort s d) := by
  rcases hp : f.probe with _ | q
  · simp only [resolvedProbe, validateProbe, hp] at hres ⊢
    split at hres
    · exact absurd hres (by simp)
    · next hpos =>
      simp only [Option.some.injEq, Prod.mk.injEq] at hres
      obtain ⟨hs, hdv⟩ := hres
      subst hs
      subst hdv
      rw [if_neg hpos, if_pos hd]
  · simp only [resolvedProbe, validateProbe, hp] at hres ⊢
    simp only [Option.some.injEq, Prod.mk.injEq] at hres
    obtain ⟨hs, hdv⟩ := hres
    subst hs
    subst hdv
    rw [if_pos hd]

/-- C5: for every capture file whose resolved duration `d` satisfies
`d < min_duration`, `validate_audio` fails with the too-short error
carrying the stage that computed `d` — whichever of the three cascade
stages it was, the stage changes only how `d` is obtained, never the
pass/fail outcome. -/
theorem validate_audio_tooShort (f : AudioFile) (min_duration : ℚ) (s : Stage) (d : ℚ)
    (hres : resolvedDuration f = some (s, d)) (hd : d < min_duration) :
    validate_audio f min_duration = .error (.tooShort s d) := by
  unfold resolvedDuration at hres
  unfold validate_audio
  split at hres
  · exact absurd hres (by simp)
  · next hne =>
    rw [if_neg hne]
    rcases hh : f.header with _ | ⟨frames, rate⟩
    · simp only [hh] at hres ⊢
      exact validateProbe_tooShort f min_duration s d hres hd
    · simp only [hh] at hres ⊢
      split at hres
      · next hcond =>
        simp only [Option.some.injEq, Prod.mk.injEq] at hres
        obtain ⟨hs, hdv⟩ := hres
        subst hs
        subst hdv
        rw [if_pos hcond, if_pos hd]
      · next hcond =>
        rw [if_neg hcond]
        exact validateProbe_tooShort f min_duration s d hres hd

/-- Witness for C5 at a file whose header parses to 1 frame at 2 Hz
(duration 1/2 s, below the default 1 s threshold). -/
theorem validate_audio_tooShort_witness :
    resolvedDuration ⟨true, 100, some (1, 2), none⟩ = some (.headerParse, 1 / 2) ∧
      (1 / 2 : ℚ) < 1 ∧
      validate_audio ⟨true, 100, some (1, 2), none⟩ 1 =
        .error (.tooShort .headerParse (1 / 2)) :=
  ⟨by norm_num [resolvedDuration], by norm_num,
   validate_audio_tooShort ⟨true, 100, some (1, 2), none⟩ 1 .headerParse (1 / 2)
     (by norm_num [resolvedDuration]) (by norm_num)⟩

/-- Helper: when `validateProbe` returns normally, the returned
duration meets the threshold. -/
theorem validateProbe_ok_ge (f : AudioFile) (min_duration : ℚ) (s : Stage) (d : ℚ)
    (hok : validateProbe f min_duration = .ok (s, d)) : min_duration ≤ d := by
  rcases hp : f.probe with _ | q
  · simp only [validateProbe, hp] at hok
    split at hok
    · exact absurd hok (by simp)
    · split at hok
      · exact absurd hok (by simp)
      · next hlt =>
        simp only [Except.ok.injEq, Prod.mk.injEq] at hok
        obtain ⟨_, hdv⟩ := hok
        subst hdv
        exact not_lt.mp hlt
  · simp only [validateProbe, hp] at hok
    split at hok
    · exact absurd hok (by simp)
    · next hlt =>
      simp only [Except.ok.injEq, Prod.mk.injEq] at hok
      obtain ⟨_, hdv⟩ := hok
      subst hdv
      exact not_lt.mp hlt

/-- Helper: when `validate_audio` returns normally, the returned
duration meets the threshold. -/
theorem validate_audio_ok_ge (f : AudioFile) (min_duration : ℚ) (s : Stage) (d : ℚ)
    (hok : validate_audio f min_duration = .ok (s, d)) : min_duration ≤ d := by
  unfold validate_audio at hok
  split at hok
  · exact absurd hok (by simp)
  · rcases hh : f.header with _ | ⟨frames, rate⟩
    · simp only [hh] at hok
      exact validateProbe_ok_ge f min_duration s d hok
    · simp only [hh] at hok
      split at hok
      · split at hok
        · exact absurd hok (by simp)
        · next hlt =>
          simp only [Except.ok.injEq, Prod.mk.injEq] at hok
          obtain ⟨_, hdv⟩ := hok
          subst hdv
          exact not_lt.mp hlt
      · exact validateProbe_ok_ge f min_duration s d hok

/-- Helper: a non-empty file of at most 44 bytes whose header parse
fell through with the caught `wave.Error` and whose probe yields
nothing is rejected with the no-data error. -/
theorem validate_audio_noData (f : AudioFile) (min_duration : ℚ)
    (hex : f.fsExists = true) (hpos : 0 < f.size) (hle : f.size ≤ 44)
    (hh : f.header = none) (hp : f.probe = none) :
    validate_audio f min_duration = .error .noData := by
  unfold validate_audio
  have hne : ¬(f.fsExists = false ∨ f.size = 0) := by
    rw [hex]
    simp only [Bool.true_eq_false, false_or]
    omega
  rw [if_neg hne]
  simp only [hh, validateProbe, hp]
  rw [if_pos]
  omega

/-- Helper: a normal full-model return comes from a normal
`validate_audio` return, so it meets the threshold. -/
theorem liftResult_ok_ge (g : AudioFile) (min_duration : ℚ) (s : Stage) (d : ℚ)
    (h : liftResult (validate_audio g min_duration) = .ok s d) :
    min_duration ≤ d := by
  cases hr : validate_audio g min_duration with
  | ok pr =>
    obtain ⟨s', d'⟩ := pr
    rw [hr] at h
    simp only [liftResult, ValidateOutcome.ok.injEq] at h
    obtain ⟨hs, hd⟩ := h
    subst hs
    subst hd
    exact validate_audio_ok_ge g min_duration _ _ hr
  | error e =>
    rw [hr] at h
    exact absurd h (by simp [liftResult])

/-- Helper: the lift of an `Except` result is never the uncaught
outcome. -/
theorem liftResult_ne_uncaught (r : Except VError (Stage × ℚ)) :
    liftResult r ≠ .uncaughtEOF := by
  cases r with
  | ok pr =>
    obtain ⟨s, d⟩ := pr
    simp [liftResult]
  | error e =>
    simp [liftResult]

/-- C10 fails on the code: at a non-empty severely truncated file (here
5 bytes), `wave.open` raises `EOFError`, which `except wave.Error`
(line 301) does not catch, so `validate_audio` neither returns normally
nor raises `AudioValidationError` — in particular it does not produce
the claimed no-data failure, contradicting the function's own docstring
("Raises AudioValidationError on failure"). -/
theorem validate_audio_uncaught_cex :
    validate_audio_full ⟨true, 5, .eofError, none⟩ 1 = .uncaughtEOF ∧
      (∀ e : VError, validate_audio_full ⟨true, 5, .eofError, none⟩ 1 ≠ .err e) ∧
      (∀ (s : Stage) (d : ℚ),
        validate_audio_full ⟨true, 5, .eofError, none⟩ 1 ≠ .ok s d) := by
  have hval : validate_audio_full ⟨true, 5, .eofError, none⟩ 1 = .uncaughtEOF := rfl
  refine ⟨hval, fun e h => ?_, fun s d h => ?_⟩
  · rw [hval] at h
    exact ValidateOutcome.noConfusion h
  · rw [hval] at h
    exact ValidateOutcome.noConfusion h

/-- C10 (amended): whenever `validate_audio` returns normally the
returned duration is at least `min_duration` (hence strictly positive
whenever the threshold is); apart from the uncaught `EOFError` path
(`wave.open` on a severely truncated file), every abnormal case raises
`AudioValidationError`; and a non-empty file of at most 44 bytes whose
header parse fails with the *caught* `wave.Error` and whose probe
yields nothing is rejected with the distinct no-data error, never
reported with a zero or negative duration. -/
theorem validate_audio_full_bounds (f : AudioFileFull) (min_duration : ℚ) :
    (∀ s d, validate_audio_full f min_duration = .ok s d →
      min_duration ≤ d ∧ (0 < min_duration → 0 < d)) ∧
    (f.header ≠ .eofError → validate_audio_full f min_duration ≠ .uncaughtEOF) ∧
    (f.fsExists = true → 0 < f.size → f.size ≤ 44 → f.header = .waveError →
      f.probe = none → validate_audio_full f min_duration = .err .noData) := by
  refine ⟨?_, ?_, ?_⟩
  · intro s d hok
    have hge : min_duration ≤ d := by
      unfold validate_audio_full at hok
      split at hok
      · exact absurd hok (by simp)
      · rcases hh : f.header with ⟨frames, rate⟩ | _ | _ <;> simp only [hh] at hok
        · exact liftResult_ok_ge f.project min_duration s d hok
        · exact liftResult_ok_ge f.project min_duration s d hok
        · exact absurd hok (by simp)
    exact ⟨hge, fun hm => lt_of_lt_of_le hm hge⟩
  · intro hne hcon
    unfold validate_audio_full at hcon
    split at hcon
    · exact ValidateOutcome.noConfusion hcon
    · rcases hh : f.header with ⟨frames, rate⟩ | _ | _ <;> simp only [hh] at hcon
      · exact liftResult_ne_uncaught _ hcon
      · exact liftResult_ne_uncaught _ hcon
      · exact absurd hh hne
  · intro hex hpos hle hh hp
    unfold validate_audio_full
    have hne : ¬(f.fsExists = false ∨ f.size = 0) := by
      rw [hex]
      simp only [Bool.true_eq_false, false_or]
      omega
    rw [if_neg hne]
    simp only [hh]
    have hproj : validate_audio f.project min_duration = .error .noData := by
      apply validate_audio_noData
      · simpa [AudioFileFull.project] using hex
      · simpa [AudioFileFull.project] using hpos
      · simpa [AudioFileFull.project] using hle
      · simp [AudioFileFull.project, hh]
      · simpa [AudioFileFull.project] using hp
    rw [hproj]
    rfl

/-- Witness for the amended C10: the bound holds at a file validating
to exactly 1 s, a parsed-header file never hits the uncaught path, and
a 44-byte caught-`wave.Error` file is rejected with the no-data
error. -/
theorem validate_audio_full_bounds_witness :
    ((1 : ℚ) ≤ 1 ∧ ((0 : ℚ) < 1 → (0 : ℚ) < 1)) ∧
      validate_audio_full ⟨true, 100, .parsed 16000 16000, none⟩ 1 ≠ .uncaughtEOF ∧
      validate_audio_full ⟨true, 44, .waveError, none⟩ 1 = .err .noData :=
  ⟨(validate_audio_full_bounds ⟨true, 100, .parsed 16000 16000, none⟩ 1).1
      .headerParse 1
      (by norm_num [validate_audio_full, AudioFileFull.project, liftResult,
        validate_audio]),
   (validate_audio_full_bounds ⟨true, 100, .parsed 16000 16000, none⟩ 1).2.1
     (by decide),
   (validate_audio_full_bounds ⟨true, 44, .waveError, none⟩ 1).2.2 rfl
     (by norm_num) (by norm_num) rfl rfl⟩

/-- Helper: `keepFirst x none = x`. -/
theorem keepFirst_none (x : Option String) : keepFirst x none = x := by
  cases x <;> rfl

/-- Helper: once a first match is folded in, later candidates are
ignored. -/
theorem keepFirst_keepFirst_some (x : Option String) (a : String) (y : Option String) :
    keepFirst (keepFirst x (some a)) y = keepFirst x (some a) := by
  cases x <;> rfl

/-- Helper: the detection loop computes, per kind, the first matching
endpoint in enumeration order on top of whatever the accumulator
already holds. -/
theorem detect_foldl (p : String → Bool) (l : List String) :
    ∀ mic0 mon0 : Option String,
      l.foldl (detectStep p) (mic0, mon0) =
        (keepFirst mic0 (l.find? fun n => p n && !(isMonitor n)),
         keepFirst mon0 (l.find? fun n => p n && isMonitor n)) := by
  induction l with
  | nil =>
    intro mic0 mon0
    simp only [List.foldl_nil, List.find?_nil, keepFirst_none]
  | cons a l ih =>
    intro mic0 mon0
    rw [List.foldl_cons]
    cases hpa : p a with
    | false =>
      have hstep : detectStep p (mic0, mon0) a = (mic0, mon0) := by
        simp [detectStep, hpa]
      rw [hstep, ih,
        List.find?_cons_of_neg _ (by simp [hpa]),
        List.find?_cons_of_neg _ (by simp [hpa])]
    | true =>
      cases hma : isMonitor a with
      | true =>
        have hstep : detectStep p (mic0, mon0) a = (mic0, keepFirst mon0 (some a)) := by
          simp [detectStep, hpa, hma]
        rw [hstep, ih,
          List.find?_cons_of_neg _ (by simp [hpa, hma]),
          List.find?_cons_of_pos _ (by simp [hpa, hma]),
          keepFirst_keepFirst_some]
      | false =>
        have hstep : detectStep p (mic0, mon0) a = (keepFirst mic0 (some a), mon0) := by
          simp [detectStep, hpa, hma]
        rw [hstep, ih,
          List.find?_cons_of_pos _ (by simp [hpa, hma]),
          List.find?_cons_of_neg _ (by simp [hpa, hma]),
          keepFirst_keepFirst_some]

/-- C6: auto-detection scans the sources in enumeration order and, per
kind (monitor-kind when the name ends in `.monitor`, mic-kind
otherwise), the first endpoint matching the pattern wins, while the
full list is returned unchanged; in particular for endpoints
`["X.monitor", "A", "X"]` and a (case-insensitive) pattern matching
"X", the mic resolves to `"X"` and the monitor to `"X.monitor"`. -/
theorem detect_sources_first_match :
    (∀ (p : String → Bool) (l : List String),
      detect_sources p l =
        (l.find? fun n => p n && !(isMonitor n),
         l.find? fun n => p n && isMonitor n, l)) ∧
      detect_sources (fun s => s.data.contains 'X' || s.data.contains 'x')
          ["X.monitor", "A", "X"] =
        (some "X", some "X.monitor", ["X.monitor", "A", "X"]) := by
  have main : ∀ (p : String → Bool) (l : List String),
      detect_sources p l =
        (l.find? fun n => p n && !(isMonitor n),
         l.find? fun n => p n && isMonitor n, l) := by
    intro p l
    unfold detect_sources
    rw [detect_foldl p l none none]
    rfl
  exact ⟨main, by decide⟩

/-- C4: session-directory creation never returns an existing directory
name (creation itself is exclusive); a free base timestamp is used
directly; and the fatal too-many-sessions exit happens exactly when the
timestamp name and all 98 suffixed candidates `_2` … `_99` (99 names in
all) already exist. -/
theorem create_output_dir_correct (ex : String → Bool) (ts : String) :
    (∀ d, create_output_dir ex ts = some d → ex d = false) ∧
    (ex ts = false → create_output_dir ex ts = some ts) ∧
    (create_output_dir ex ts = none ↔
      ex ts = true ∧ ∀ i, 2 ≤ i → i ≤ 99 → ex (candidateName ts i) = true) := by
  refine ⟨?_, ?_, ?_⟩
  · intro d hd
    unfold create_output_dir at hd
    split at hd
    · unfold findCandidate at hd
      have hp := List.find?_some hd
      simpa using hp
    · next hts =>
      simp only [Option.some.injEq] at hd
      subst hd
      simpa using hts
  · intro h
    unfold create_output_dir
    rw [if_neg (by simp [h])]
  · unfold create_output_dir
    split
    · next hts =>
      unfold findCandidate
      rw [List.find?_eq_none]
      constructor
      · intro hall
        refine ⟨hts, ?_⟩
        intro i h2 h99
        have hmem : candidateName ts i ∈
            (List.range 98).map (fun k => candidateName ts (k + 2)) := by
          rw [List.mem_map]
          exact ⟨i - 2, List.mem_range.mpr (by omega), by rw [Nat.sub_add_cancel h2]⟩
        have := hall _ hmem
        simpa using this
      · intro ⟨_, hall⟩ x hx
        rw [List.mem_map] at hx
        obtain ⟨k, hk, rfl⟩ := hx
        have hkr := List.mem_range.mp hk
        have := hall (k + 2) (by omega) (by omega)
        simp [this]
    · next hts =>
      constructor
      · intro h
        exact absurd h (by simp)
      · intro ⟨h1, _⟩
        exact absurd h1 (by simpa using hts)

/-- Witness for C4: with only `"t"` taken, the first suffixed candidate
`"t_2"` is chosen and is fresh; with nothing taken, the bare timestamp
is used. -/
theorem create_output_dir_correct_witness :
    ((fun s => decide (s = "t")) "t_2" = false) ∧
      create_output_dir (fun _ => false) "t" = some "t" :=
  ⟨(create_output_dir_correct (fun s => decide (s = "t")) "t").1 "t_2" (by decide),
   (create_output_dir_correct (fun _ => false) "t").2.1 rfl⟩

/-- Helper: the recording wait loop observes a raised stop flag no
later than the tick at which it is set, given enough polls. -/
theorem recordingPoll_finds (isSet : Nat → Bool) :
    ∀ (fuel k s : Nat), k ≤ s → s < k + fuel → isSet s = true →
      ∃ j, k ≤ j ∧ j ≤ s ∧ recordingPoll isSet k fuel = some j ∧ isSet j = true := by
  intro fuel
  induction fuel with
  | zero =>
    intro k s hks hlt _
    omega
  | succ n ih =>
    intro k s hks hlt hs
    by_cases hk : isSet k = true
    · exact ⟨k, le_refl k, hks, by simp [recordingPoll, hk], hk⟩
    · have hne : k ≠ s := fun h => hk (h ▸ hs)
      obtain ⟨j, hj1, hj2, hj3, hj4⟩ := ih (k + 1) s (by omega) (by omega) hs
      refine ⟨j, by omega, hj2, ?_, hj4⟩
      simp [recordingPoll, hk, hj3]

/-- C3: a cancellation flag raised by the control thread at poll tick
`s` while the pipeline is `Recording` is observed by the wait loop at a
tick `j ≤ s` (polls are 0.1 s apart, well under a second); the run then
goes through the same stop-and-validate path as an operator stop, and
it ends in `Idle` (or `Error`) with both capture processes in a
terminal state. -/
theorem pipeline_cancellation (e : CancelEnv) (s : Nat) (h : e.stopFlag s = true) :
    (∃ j, j ≤ s ∧ recordingPoll e.stopFlag 0 (s + 1) = some j ∧ e.stopFlag j = true) ∧
      run_pipeline e (s + 1) = some (operatorStopResult e) ∧
      ((operatorStopResult e).1 = Phase.idle ∨ (operatorStopResult e).1 = Phase.error) ∧
      (operatorStopResult e).2.1.terminal = true ∧
      (operatorStopResult e).2.2.terminal = true ∧
      pollIntervalSeconds < 1 := by
  obtain ⟨j, _, hj2, hj3, hj4⟩ :=
    recordingPoll_finds e.stopFlag (s + 1) 0 s (Nat.zero_le s) (by omega) h
  refine ⟨⟨j, hj2, hj3, hj4⟩, ?_, ?_, ?_, ?_, ?_⟩
  · unfold run_pipeline
    rw [hj3]
    rfl
  · cases hm : e.micValid <;> cases ht : e.transcribeOk <;>
      simp [operatorStopResult, stopAndValidatePath, hm, ht]
  · cases hmi : e.micIgnoresInterrupt <;>
      simp [operatorStopResult, stopAndValidatePath, stopProc, ProcState.terminal, hmi]
  · cases hni : e.monIgnoresInterrupt <;>
      simp [operatorStopResult, stopAndValidatePath, stopProc, ProcState.terminal, hni]
  · unfold pollIntervalSeconds
    norm_num

/-- A concrete cancelled run: the flag goes up at tick 1, the monitor
ignores SIGINT, everything downstream succeeds. -/
def sampleCancelEnv : CancelEnv :=
  ⟨fun k => decide (1 ≤ k), false, true, true, true, true⟩

/-- Witness for C3 at `sampleCancelEnv` with the flag raised at tick 1. -/
theorem pipeline_cancellation_witness :
    (∃ j, j ≤ 1 ∧ recordingPoll sampleCancelEnv.stopFlag 0 2 = some j ∧
        sampleCancelEnv.stopFlag j = true) ∧
      run_pipeline sampleCancelEnv 2 = some (operatorStopResult sampleCancelEnv) ∧
      ((operatorStopResult sampleCancelEnv).1 = Phase.idle ∨
        (operatorStopResult sampleCancelEnv).1 = Phase.error) ∧
      (operatorStopResult sampleCancelEnv).2.1.terminal = true ∧
      (operatorStopResult sampleCancelEnv).2.2.terminal = true ∧
      pollIntervalSeconds < 1 :=
  pipeline_cancellation sampleCancelEnv 1 (by decide)

end Recmeet
